import Mathlib

/-!
Shallow embedding of `src/fraud_detection/transaction_analyzer.py`
(class `TransactionAnalyzer`), together with theorems checking the
specification's claims about the detection rule engine.

Modelling conventions:
* a pandas DataFrame row becomes a `Txn` record; the frame is a `List Txn`
  in file order;
* timestamps are instants in whole seconds (`Int`); `timedelta(hours=h)`
  becomes `3600 * h`;
* monetary amounts and the percentage arithmetic use `ℚ` (the source uses
  machine floats; every claim-relevant comparison here is exact);
* `df.groupby('customer_id')` iterates groups in ascending key order,
  each group keeping file order; modelled by `customers` and `groupTxns`;
* `sort_values('timestamp')` is modelled as an insertion sort ascending
  by timestamp (the pandas default algorithm does not document the
  relative order of equal timestamps);
* the constructor's `raise ValueError` is modelled with `Except`.  Inside
  the detectors, no operation raises on schema-valid data: the column
  sums are numpy scalars, so the one zero-denominator division (line
  167, `total_amount == 0`) evaluates `0.0 / 0.0` to NaN with a
  RuntimeWarning instead of raising, which `RiskResult.nanScored`
  records; a NaN score compares false against every threshold;
* the instance attribute `_merchant_counts_cache` is explicit state of
  type `Cache` threaded through the merchant-risk scorer.
-/

namespace FraudDetection

/-- One row of the transaction table (`required_columns` in `__init__`). -/
structure Txn where
  transaction_id : String
  customer_id : String
  timestamp : Int
  amount : ℚ
  location : String
  merchant_category : String
deriving DecidableEq

/-- The configuration dictionary (the keys of `default_config` in `__init__`). -/
structure Config where
  high_amount_threshold : ℚ
  rapid_transaction_window_hours : Int
  rapid_transaction_count : Int
  travel_time_threshold_hours : Int
  high_risk_categories : List String
  risk_threshold_percentage : ℚ
  enable_caching : Bool
deriving DecidableEq

/-- `default_config` from `__init__` (lines 33-41 of the source). -/
def default_config : Config :=
  { high_amount_threshold := 5000
    rapid_transaction_window_hours := 1
    rapid_transaction_count := 3
    travel_time_threshold_hours := 2
    high_risk_categories := ["Jewelry", "Electronics"]
    risk_threshold_percentage := 50
    enable_caching := true }

/-- The engine state set up by `TransactionAnalyzer.__init__` (lines 48-54):
the loaded frame plus the thresholds derived from the resolved config. -/
structure Analyzer where
  df : List Txn
  HIGH_AMOUNT_THRESHOLD : ℚ
  RAPID_TRANSACTION_WINDOW : Int
  RAPID_TRANSACTION_COUNT : Int
  TRAVEL_TIME_THRESHOLD : Int
  HIGH_RISK_CATEGORIES : List String
  RISK_THRESHOLD : ℚ
  enable_caching : Bool
deriving DecidableEq

/-- The attribute assignments of `__init__` (lines 49-54): in particular
`RISK_THRESHOLD = config['risk_threshold_percentage'] / 100.0`. -/
def mk_analyzer (df : List Txn) (config : Config) : Analyzer :=
  { df := df
    HIGH_AMOUNT_THRESHOLD := config.high_amount_threshold
    RAPID_TRANSACTION_WINDOW := 3600 * config.rapid_transaction_window_hours
    RAPID_TRANSACTION_COUNT := config.rapid_transaction_count
    TRAVEL_TIME_THRESHOLD := 3600 * config.travel_time_threshold_hours
    HIGH_RISK_CATEGORIES := config.high_risk_categories
    RISK_THRESHOLD := config.risk_threshold_percentage / 100
    enable_caching := config.enable_caching }

/-- `TransactionAnalyzer.__init__` given an already-parsed frame and an
already-merged configuration (CSV loading, timestamp parsing and the
column-schema check belong to ingestion and are outside the record
model).  The only remaining check is `self.df.empty` (line 18); the
constructor never validates any configuration value, in particular not
`rapid_transaction_count`. -/
def analyzer_init (df : List Txn) (config : Config) : Except String Analyzer :=
  if df.isEmpty then .error "CSV file is empty"
  else .ok (mk_analyzer df config)

/-- Insertion of a transaction into a list sorted ascending by timestamp
(placed after existing strictly-smaller timestamps, before equal ones). -/
def insert_by_timestamp (t : Txn) : List Txn → List Txn
  | [] => [t]
  | u :: rest =>
    if u.timestamp < t.timestamp then u :: insert_by_timestamp t rest
    else t :: u :: rest

/-- `transactions.sort_values('timestamp')`: sort ascending by timestamp. -/
def sort_values : List Txn → List Txn
  | [] => []
  | t :: rest => insert_by_timestamp t (sort_values rest)

/-- Distinct strings of a list (whose order the callers below either sort
or ignore). -/
def distinct_strings : List String → List String
  | [] => []
  | c :: rest =>
    let r := distinct_strings rest
    if r.contains c then r else c :: r

/-- Insertion into a list of strings sorted ascending (lexicographic on
code points, the order used for string group keys). -/
def insert_str (c : String) : List String → List String
  | [] => [c]
  | d :: rest => if d.toList < c.toList then d :: insert_str c rest else c :: d :: rest

/-- The group keys of `self.df.groupby('customer_id')`, in the ascending
key order in which pandas iterates the groups. -/
def customers (df : List Txn) : List String :=
  (distinct_strings (df.map (·.customer_id))).foldr insert_str []

/-- One group of `groupby('customer_id')`: the customer's rows in file order. -/
def groupTxns (df : List Txn) (cid : String) : List Txn :=
  df.filter (fun t => t.customer_id == cid)

/-- `find_high_value_transactions` (line 58). -/
def find_high_value_transactions (a : Analyzer) : List Txn :=
  a.df.filter (fun t => decide (a.HIGH_AMOUNT_THRESHOLD < t.amount))

/-- The dictionary appended on lines 78-82. -/
structure RapidPattern where
  transactions : List String
  time_window : Int
  total_amount : ℚ
deriving DecidableEq

/-- The window slices `sorted_txns.iloc[i : i + count]` of
`find_rapid_transactions` (lines 70-71), one per
`i in range(len(sorted_txns) - count + 1)`. -/
def rapid_windows (count : Int) (s : List Txn) : List (List Txn) :=
  (List.range (((s.length : Int) - count + 1).toNat)).map
    (fun i => (s.drop i).take count.toNat)

/-- Lines 72-82: the span check `time_diff <= RAPID_TRANSACTION_WINDOW`
and the pattern emitted for one window.  The empty-window arm stands for
the `window.iloc[-1]` lookup, which in the source faults when
`count <= 0`; every theorem below assumes `1 <= count`, where that arm
is unreachable. -/
def window_pattern (window : Int) (w : List Txn) : Option RapidPattern :=
  match w.getLast?, w.head? with
  | some last, some first =>
    let time_diff := last.timestamp - first.timestamp
    if time_diff ≤ window then
      some { transactions := w.map (·.transaction_id)
             time_window := time_diff
             total_amount := (w.map (·.amount)).sum }
    else none
  | _, _ => none

/-- The per-customer body of `find_rapid_transactions` (lines 66-82). -/
def rapid_patterns_for (count window : Int) (txns : List Txn) : List RapidPattern :=
  (rapid_windows count (sort_values txns)).filterMap (window_pattern window)

/-- `find_rapid_transactions` (lines 60-84): a mapping from customer id
to its list of qualifying patterns; a customer gets a key only when its
first pattern is appended, so only customers with a non-empty list appear. -/
def find_rapid_transactions (a : Analyzer) : List (String × List RapidPattern) :=
  (customers a.df).filterMap (fun cid =>
    let ps := rapid_patterns_for a.RAPID_TRANSACTION_COUNT a.RAPID_TRANSACTION_WINDOW
      (groupTxns a.df cid)
    if ps.isEmpty then none else some (cid, ps))

/-- The inner dictionaries of lines 106-115. -/
structure TravelTxn where
  id : String
  location : String
  timestamp : Int
deriving DecidableEq

/-- The dictionary appended on lines 104-117. -/
structure TravelAnomaly where
  customer_id : String
  transaction1 : TravelTxn
  transaction2 : TravelTxn
  time_difference : Int
deriving DecidableEq

/-- The consecutive-pair scan of `find_impossible_travel` (lines 96-117)
over one customer's sorted transactions. -/
def travel_pairs (threshold : Int) (cid : String) (s : List Txn) : List TravelAnomaly :=
  (List.range (s.length - 1)).filterMap (fun i =>
    match s[i]?, s[i + 1]? with
    | some curr, some nxt =>
      if curr.location ≠ nxt.location then
        if nxt.timestamp - curr.timestamp < threshold then
          some { customer_id := cid
                 transaction1 := { id := curr.transaction_id, location := curr.location,
                                   timestamp := curr.timestamp }
                 transaction2 := { id := nxt.transaction_id, location := nxt.location,
                                   timestamp := nxt.timestamp }
                 time_difference := nxt.timestamp - curr.timestamp }
        else none
      else none
    | _, _ => none)

/-- The per-customer body of `find_impossible_travel` (lines 91-117). -/
def find_impossible_travel_for (threshold : Int) (cid : String) (txns : List Txn) :
    List TravelAnomaly :=
  travel_pairs threshold cid (sort_values txns)

/-- `find_impossible_travel` (lines 86-119): one flat list, customers in
group order, pairs in scan order. -/
def find_impossible_travel (a : Analyzer) : List TravelAnomaly :=
  (customers a.df).flatMap
    (fun cid => find_impossible_travel_for a.TRAVEL_TIME_THRESHOLD cid (groupTxns a.df cid))

/-- The value type of `value_counts()`: category to count. -/
abbrev MerchantCounts := List (String × Nat)

/-- The instance attribute `_merchant_counts_cache` (line 30). -/
abbrev Cache := List (String × MerchantCounts)

/-- `transactions['merchant_category'].value_counts()`: the count of the
customer's transactions per distinct category.  (The source orders the
series by descending count; no claim depends on the order of the
distribution, only on its key membership and key-to-count content.) -/
def value_counts (txns : List Txn) : MerchantCounts :=
  (distinct_strings (txns.map (·.merchant_category))).map
    (fun c => (c, (txns.filter (fun t => t.merchant_category == c)).length))

/-- Python dict assignment `d[k] = v`: replace the entry of an existing
key in place, or append a new entry. -/
def dict_set {α : Type} : List (String × α) → String → α → List (String × α)
  | [], k, v => [(k, v)]
  | p :: rest, k, v => if p.1 == k then (k, v) :: rest else p :: dict_set rest k v

/-- `_get_merchant_counts` (lines 121-133), with the instance cache made
explicit: recompute and store whenever caching is disabled or the key is
missing, then return the cached entry. -/
def get_merchant_counts (enable_caching : Bool) (cache : Cache) (customer_id : String)
    (txns : List Txn) : MerchantCounts × Cache :=
  if !enable_caching || (cache.lookup customer_id).isNone then
    let cache' := dict_set cache customer_id (value_counts txns)
    ((cache'.lookup customer_id).getD [], cache')
  else
    ((cache.lookup customer_id).getD [], cache)

/-- The dictionary returned on lines 172-181. -/
structure RiskData where
  total_transactions : Nat
  high_risk_transactions : Nat
  total_amount : ℚ
  high_risk_amount : ℚ
  merchant_distribution : MerchantCounts
  risk_percentage : ℚ
  amount_percentage : ℚ
  risk_score : ℚ
deriving DecidableEq

/-- The accumulation loop of `_calculate_risk_score` (lines 153-161):
for each configured category present in `merchant_counts`, add the
customer's matching transaction count and summed amount. -/
def high_risk_totals (cats : List String) (mc : MerchantCounts) (txns : List Txn) :
    Nat × ℚ :=
  cats.foldl (fun acc category =>
    if (mc.map Prod.fst).contains category then
      let cat_txns := txns.filter (fun t => t.merchant_category == category)
      (acc.1 + cat_txns.length, acc.2 + (cat_txns.map (·.amount)).sum)
    else acc) (0, 0)

/-- The three ways `_calculate_risk_score` comes back to its caller on
schema-valid data: the two `return None` exits produce `noResult`; a
customer with `total_amount == 0` gets a dict whose `amount_percentage`
and `risk_score` are NaN (`nanScored`); everyone else gets a dict with
finite fields (`scored`). -/
inductive RiskResult where
  | noResult : RiskResult
  | nanScored : RiskResult
  | scored (rd : RiskData) : RiskResult
deriving DecidableEq

/-- `_calculate_risk_score` (lines 135-181).  `noResult` stands for the
two `return None` exits (lines 146-147 and 163-164).  When
`total_amount == 0` (which forces `high_risk_amount == 0`, amounts being
non-negative in the data model), the unguarded division on line 167 is
numpy-scalar `0.0 / 0.0` — the column sums are numpy scalars — which
evaluates to NaN with a RuntimeWarning rather than raising; NaN then
propagates through `risk_score = (risk_percentage + NaN) / 2`, so the
caller receives a dict whose `amount_percentage` and `risk_score` are
NaN: `nanScored`.  (The `risk_percentage` division on line 166 is only
reached with `total_transactions != 0` and is always finite.) -/
def calculate_risk_score (cats : List String) (mc : MerchantCounts) (txns : List Txn) :
    RiskResult :=
  let total_transactions := txns.length
  if total_transactions = 0 then .noResult
  else
    let total_amount := (txns.map (·.amount)).sum
    let hr := high_risk_totals cats mc txns
    if hr.1 = 0 then .noResult
    else if total_amount = 0 then .nanScored
    else
      let risk_percentage : ℚ := ((hr.1 : ℚ) / (total_transactions : ℚ)) * 100
      let amount_percentage : ℚ := (hr.2 / total_amount) * 100
      .scored
        { total_transactions := total_transactions
          high_risk_transactions := hr.1
          total_amount := total_amount
          high_risk_amount := hr.2
          merchant_distribution := mc
          risk_percentage := risk_percentage
          amount_percentage := amount_percentage
          risk_score := (risk_percentage + amount_percentage) / 2 }

/-- The customer loop of `find_unusual_merchant_patterns` (lines 189-196):
thread the cache and apply the check
`if risk_data and risk_data['risk_score'] > self.RISK_THRESHOLD`:
`None` is falsy (`noResult`), a NaN score compares false against every
threshold (`nanScored`), and a finite score compares exactly
(`scored`); only the last can add an entry. -/
def merchant_scan (cats : List String) (thresh : ℚ) (enable : Bool) (df : List Txn) :
    List String → Cache → List (String × RiskData) × Cache
  | [], cache => ([], cache)
  | cid :: rest, cache =>
    let txns := groupTxns df cid
    let mcc := get_merchant_counts enable cache cid txns
    match calculate_risk_score cats mcc.1 txns with
    | .noResult => merchant_scan cats thresh enable df rest mcc.2
    | .nanScored => merchant_scan cats thresh enable df rest mcc.2
    | .scored risk_data =>
      if risk_data.risk_score > thresh then
        let rc := merchant_scan cats thresh enable df rest mcc.2
        ((cid, risk_data) :: rc.1, rc.2)
      else merchant_scan cats thresh enable df rest mcc.2

/-- `find_unusual_merchant_patterns` (lines 183-202).  The customer loop
sits inside `try/except Exception` (returning an empty dict on a raised
error), but on schema-valid data no statement of the loop raises — the
only zero-denominator division, line 167, yields NaN over the frame's
numpy scalars — so the `except` branch is unreachable and the function
is the loop itself. -/
def find_unusual_merchant_patterns (a : Analyzer) (cache : Cache) :
    List (String × RiskData) × Cache :=
  merchant_scan a.HIGH_RISK_CATEGORIES a.RISK_THRESHOLD a.enable_caching a.df
    (customers a.df) cache

/-- The dictionary returned by `analyze_transactions` (lines 206-211). -/
structure AnalysisReport where
  high_value_transactions : List Txn
  rapid_transactions : List (String × List RapidPattern)
  impossible_travel : List TravelAnomaly
  unusual_merchant_patterns : List (String × RiskData)
deriving DecidableEq

/-- `analyze_transactions` (lines 204-211), with the merchant-count cache
threaded explicitly. -/
def analyze_transactions (a : Analyzer) (cache : Cache) : AnalysisReport × Cache :=
  let ump := find_unusual_merchant_patterns a cache
  ({ high_value_transactions := find_high_value_transactions a
     rapid_transactions := find_rapid_transactions a
     impossible_travel := find_impossible_travel a
     unusual_merchant_patterns := ump.1 }, ump.2)

/-- §4.1 of the spec, stated over window indices of the sorted list: for
each `i = 0 .. n - count`, emit exactly when
`timestamp[i+count-1] - timestamp[i] <= window`, with the window's
transaction ids in window order, the span, and the summed amount. -/
def rapid_patterns_spec (count window : Int) (txns : List Txn) : List RapidPattern :=
  let s := sort_values txns
  (List.range (s.length + 1 - count.toNat)).filterMap (fun i =>
    match s[i]?, s[i + count.toNat - 1]? with
    | some first, some last =>
      if last.timestamp - first.timestamp ≤ window then
        some { transactions := ((s.drop i).take count.toNat).map (·.transaction_id)
               time_window := last.timestamp - first.timestamp
               total_amount := (((s.drop i).take count.toNat).map (·.amount)).sum }
      else none
    | _, _ => none)

/-- §4.2 of the spec for one customer: for each consecutive pair in
timestamp order, emit exactly when the locations differ and the gap is
strictly below the threshold. -/
def impossible_travel_spec (threshold : Int) (cid : String) (txns : List Txn) :
    List TravelAnomaly :=
  let s := sort_values txns
  (List.range (s.length - 1)).filterMap (fun i =>
    match s[i]?, s[i + 1]? with
    | some curr, some nxt =>
      if curr.location ≠ nxt.location ∧ nxt.timestamp - curr.timestamp < threshold then
        some { customer_id := cid
               transaction1 := { id := curr.transaction_id, location := curr.location,
                                 timestamp := curr.timestamp }
               transaction2 := { id := nxt.transaction_id, location := nxt.location,
                                 timestamp := nxt.timestamp }
               time_difference := nxt.timestamp - curr.timestamp }
      else none
    | _, _ => none)

/-- The per-customer scan with the cache stripped out: what the loop of
`find_unusual_merchant_patterns` computes when every merchant-count it
reads equals `value_counts` of the customer's transactions (which the
cache-consistency lemmas below establish for every reachable cache). -/
def merchant_scan_pure (cats : List String) (thresh : ℚ) (df : List Txn) :
    List String → List (String × RiskData)
  | [] => []
  | cid :: rest =>
    let txns := groupTxns df cid
    match calculate_risk_score cats (value_counts txns) txns with
    | .noResult => merchant_scan_pure cats thresh df rest
    | .nanScored => merchant_scan_pure cats thresh df rest
    | .scored risk_data =>
      if risk_data.risk_score > thresh then
        (cid, risk_data) :: merchant_scan_pure cats thresh df rest
      else merchant_scan_pure cats thresh df rest

/-- The cache-independent value of `find_unusual_merchant_patterns`. -/
def merchant_result_pure (cats : List String) (thresh : ℚ) (df : List Txn) :
    List (String × RiskData) :=
  merchant_scan_pure cats thresh df (customers df)

/-- Every cache entry equals the merchant counts recomputed from the
frame: the invariant of `_merchant_counts_cache` (the frame is immutable
for the instance's life). -/
def CacheConsistent (df : List Txn) (cache : Cache) : Prop :=
  ∀ p ∈ cache, p.2 = value_counts (groupTxns df p.1)

/-! Concrete rows used by the concrete-input theorems below. -/

/-- A high-risk purchase of 100 by customer `A`. -/
def txn_c1a : Txn := { transaction_id := "T1", customer_id := "A", timestamp := 0,
                       amount := 100, location := "NYC", merchant_category := "Jewelry" }

/-- A non-high-risk purchase of 100 by customer `A`. -/
def txn_c1b : Txn := { transaction_id := "T2", customer_id := "A", timestamp := 60,
                       amount := 100, location := "NYC", merchant_category := "Groceries" }

/-- A zero-amount high-risk purchase by customer `A` (total_amount = 0). -/
def txn_zero : Txn := { transaction_id := "T1", customer_id := "A", timestamp := 0,
                        amount := 0, location := "NYC", merchant_category := "Jewelry" }

/-- A well-formed high-risk purchase by customer `B`. -/
def txn_good : Txn := { transaction_id := "T2", customer_id := "B", timestamp := 0,
                        amount := 100, location := "NYC", merchant_category := "Jewelry" }

/-- The risk data the scorer computes for `[txn_c1a, txn_c1b]`: a risk
score of exactly 50 percentage points. -/
def rd_c1 : RiskData :=
  { total_transactions := 2, high_risk_transactions := 1, total_amount := 200,
    high_risk_amount := 100, merchant_distribution := [("Jewelry", 1), ("Groceries", 1)],
    risk_percentage := 50, amount_percentage := 50, risk_score := 50 }

/-- The risk data the scorer computes for `[txn_good]`. -/
def rd_good : RiskData :=
  { total_transactions := 1, high_risk_transactions := 1, total_amount := 100,
    high_risk_amount := 100, merchant_distribution := [("Jewelry", 1)],
    risk_percentage := 100, amount_percentage := 100, risk_score := 100 }

/-- A configuration with `rapid_transaction_count = 1`, below the
documented minimum of 2. -/
def cfg_low_count : Config := { default_config with rapid_transaction_count := 1 }

/-- Four transactions of customer `C` one minute apart (the overlapping
-window example of §8 of the spec). -/
def demo_txns : List Txn :=
  [ { transaction_id := "D1", customer_id := "C", timestamp := 0,
      amount := 10, location := "NYC", merchant_category := "Groceries" },
    { transaction_id := "D2", customer_id := "C", timestamp := 60,
      amount := 10, location := "NYC", merchant_category := "Groceries" },
    { transaction_id := "D3", customer_id := "C", timestamp := 120,
      amount := 10, location := "NYC", merchant_category := "Groceries" },
    { transaction_id := "D4", customer_id := "C", timestamp := 180,
      amount := 10, location := "NYC", merchant_category := "Groceries" } ]

theorem length_insert_by_timestamp (t : Txn) (l : List Txn) :
    (insert_by_timestamp t l).length = l.length + 1 := by
  induction l with
  | nil => simp [insert_by_timestamp]
  | cons u rest ih =>
    simp only [insert_by_timestamp]
    split <;> simp [ih]

theorem length_sort_values (l : List Txn) : (sort_values l).length = l.length := by
  induction l with
  | nil => rfl
  | cons t rest ih => simp [sort_values, length_insert_by_timestamp, ih]

/-- C4: for every count `>= 1` the rapid-transaction detector examines every
contiguous window `[i, i+count)` of the timestamp-sorted transactions for
`i = 0 .. n - count` and emits a pattern exactly when
`timestamp[i+count-1] - timestamp[i] <= window`, with the window's ids in
window order, the span, and the summed amount, one pattern per qualifying
window without merging; and a customer with fewer than `count`
transactions produces no patterns. -/
theorem rapid_patterns_match_spec (count window : Int) (txns : List Txn)
    (hc : 1 ≤ count) :
    rapid_patterns_for count window txns = rapid_patterns_spec count window txns ∧
    ((txns.length : Int) < count → rapid_patterns_for count window txns = []) := by
  constructor
  · unfold rapid_patterns_for rapid_patterns_spec rapid_windows
    rw [List.filterMap_map]
    have hlen : (((sort_values txns).length : Int) - count + 1).toNat =
        (sort_values txns).length + 1 - count.toNat := by omega
    rw [hlen]
    apply List.filterMap_congr
    intro i hi
    rw [List.mem_range] at hi
    set s := sort_values txns with hs
    have hc1 : 1 ≤ count.toNat := by omega
    have hle : i + count.toNat ≤ s.length := by omega
    have hdlen : count.toNat ≤ (s.drop i).length := by
      rw [List.length_drop]; omega
    have hwlen : ((s.drop i).take count.toNat).length = count.toNat :=
      List.length_take_of_le hdlen
    have h1 : ((s.drop i).take count.toNat).head? = s[i]? := by
      rw [List.head?_eq_getElem?, List.getElem?_take_of_lt (by omega : 0 < count.toNat),
        List.getElem?_drop, Nat.add_zero]
    have h2 : ((s.drop i).take count.toNat).getLast? = s[i + count.toNat - 1]? := by
      rw [List.getLast?_eq_getElem?, hwlen,
        List.getElem?_take_of_lt (by omega : count.toNat - 1 < count.toNat),
        List.getElem?_drop]
      congr 1
      omega
    have hfst := List.getElem?_eq_getElem (show i < s.length by omega)
    have hlst := List.getElem?_eq_getElem (show i + count.toNat - 1 < s.length by omega)
    simp only [Function.comp, window_pattern, h1, h2, hfst, hlst]
  · intro h
    unfold rapid_patterns_for rapid_windows
    have : (((sort_values txns).length : Int) - count + 1).toNat = 0 := by
      rw [length_sort_values]; omega
    rw [this]
    rfl

/-- C5: the impossible-travel detector, scanning consecutive pairs of a
customer's timestamp-sorted transactions, emits an anomaly for a pair
exactly when the two locations differ and the elapsed time is strictly
below the threshold (so a gap equal to the threshold, or a same-location
pair, emits nothing). -/
theorem travel_matches_spec (threshold : Int) (cid : String) (txns : List Txn) :
    find_impossible_travel_for threshold cid txns = impossible_travel_spec threshold cid txns := by
  unfold find_impossible_travel_for travel_pairs impossible_travel_spec
  apply List.filterMap_congr
  intro i hi
  rw [List.mem_range] at hi
  set s := sort_values txns with hs
  have hfst := List.getElem?_eq_getElem (show i < s.length by omega)
  have hsnd := List.getElem?_eq_getElem (show i + 1 < s.length by omega)
  simp only [hfst, hsnd]
  by_cases h1 : s[i].location ≠ s[i + 1].location
  · by_cases h2 : s[i + 1].timestamp - s[i].timestamp < threshold
    · simp [h1, h2]
    · simp [h1, h2]
  · simp [h1]

/-- Witness for the rapid-window characterization: the spec's
overlapping-window example (`count = 3`, four transactions one minute
apart, one-hour window). -/
theorem rapid_patterns_match_spec_witness :
    (1 : Int) ≤ 3 ∧
    (rapid_patterns_for 3 3600 demo_txns = rapid_patterns_spec 3 3600 demo_txns ∧
     ((demo_txns.length : Int) < 3 → rapid_patterns_for 3 3600 demo_txns = [])) :=
  ⟨by decide, rapid_patterns_match_spec 3 3600 demo_txns (by decide)⟩

/-- C1: the claim fails on the code.  With the default configuration
(`risk_threshold_percentage = 50`, hence `risk_threshold_fraction =
RISK_THRESHOLD = 1/2`), customer `A` has `risk_score` exactly
`risk_threshold_fraction * 100 = 50`, yet a profile IS emitted: line 195
compares the percentage-points score against `RISK_THRESHOLD` itself
(`0.5`) instead of `RISK_THRESHOLD * 100`. -/
theorem risk_threshold_unit_bug :
    (((find_unusual_merchant_patterns (mk_analyzer [txn_c1a, txn_c1b] default_config) []).1.lookup
        "A").map RiskData.risk_score = some 50) ∧
    (mk_analyzer [txn_c1a, txn_c1b] default_config).RISK_THRESHOLD * 100 = 50 := by
  have hg : groupTxns [txn_c1a, txn_c1b] "A" = [txn_c1a, txn_c1b] := by decide
  have hv : value_counts [txn_c1a, txn_c1b] = [("Jewelry", 1), ("Groceries", 1)] := by decide
  have hcust : customers [txn_c1a, txn_c1b] = ["A"] := by decide
  have hf1 : List.filter (fun t => t.merchant_category == "Jewelry") [txn_c1a, txn_c1b]
      = [txn_c1a] := by decide
  have hf2 : List.filter (fun t => t.merchant_category == "Electronics") [txn_c1a, txn_c1b]
      = [] := by decide
  have hcon1 : (([("Jewelry", (1 : Nat)), ("Groceries", 1)].map Prod.fst).contains "Jewelry")
      = true := by decide
  have hcon2 : (([("Jewelry", (1 : Nat)), ("Groceries", 1)].map Prod.fst).contains "Electronics")
      = false := by decide
  have hh : high_risk_totals ["Jewelry", "Electronics"] [("Jewelry", 1), ("Groceries", 1)]
      [txn_c1a, txn_c1b] = (1, 100) := by
    simp [high_risk_totals, hcon1, hcon2, hf1, hf2]
    norm_num [txn_c1a]
  have hc : calculate_risk_score ["Jewelry", "Electronics"] [("Jewelry", 1), ("Groceries", 1)]
      [txn_c1a, txn_c1b] = .scored rd_c1 := by
    simp [calculate_risk_score, hh, rd_c1]
    norm_num [txn_c1a, txn_c1b]
  have hm : merchant_scan ["Jewelry", "Electronics"] (50 / 100) true [txn_c1a, txn_c1b] ["A"] [] =
      ([("A", rd_c1)], [("A", [("Jewelry", 1), ("Groceries", 1)])]) := by
    simp only [merchant_scan, hg, get_merchant_counts, List.lookup, dict_set, hv]
    norm_num [hc, rd_c1, List.lookup]
  constructor
  · simp only [find_unusual_merchant_patterns, mk_analyzer, default_config, hcust, hm]
    simp [List.lookup, rd_c1]
  · norm_num [mk_analyzer, default_config]

/-- C3: the claim fails on the code.  For a customer whose only
transaction is a zero-amount high-risk purchase (`total_amount == 0`,
`high_risk_count == 1`), the line-167 division is not guarded: over the
frame's numpy scalars it evaluates `0.0 / 0.0` to NaN, so the returned
dict's `amount_percentage` and `risk_score` are NaN — not 0 — and since
`NaN > RISK_THRESHOLD` is false the customer is silently never emitted.
Under the claim's guarded reading (amount risk treated as 0) the same
customer would have the finite score `risk_percentage / 2 = 50` and
line 195's comparison would emit it. -/
theorem amount_division_unguarded :
    calculate_risk_score ["Jewelry", "Electronics"] (value_counts [txn_zero]) [txn_zero]
      = .nanScored
    ∧ (find_unusual_merchant_patterns (mk_analyzer [txn_zero] default_config) []).1 = [] := by
  have hv : value_counts [txn_zero] = [("Jewelry", 1)] := by decide
  have hgA : groupTxns [txn_zero] "A" = [txn_zero] := by decide
  have hcustA : customers [txn_zero] = ["A"] := by decide
  have hf1 : List.filter (fun t => t.merchant_category == "Jewelry") [txn_zero]
      = [txn_zero] := by decide
  have hf2 : List.filter (fun t => t.merchant_category == "Electronics") [txn_zero]
      = [] := by decide
  have hcon1 : (([("Jewelry", (1 : Nat))].map Prod.fst).contains "Jewelry") = true := by decide
  have hcon2 : (([("Jewelry", (1 : Nat))].map Prod.fst).contains "Electronics") = false := by decide
  have hh : high_risk_totals ["Jewelry", "Electronics"] [("Jewelry", 1)] [txn_zero]
      = (1, 0) := by
    simp [high_risk_totals, hcon1, hcon2, hf1, hf2]
    norm_num [txn_zero]
  have hc : calculate_risk_score ["Jewelry", "Electronics"] [("Jewelry", 1)] [txn_zero]
      = .nanScored := by
    simp [calculate_risk_score, hh]
    norm_num [txn_zero]
  refine ⟨by rw [hv]; exact hc, ?_⟩
  have hm : merchant_scan ["Jewelry", "Electronics"] (50 / 100) true [txn_zero] ["A"] [] =
      ([], [("A", [("Jewelry", 1)])]) := by
    simp only [merchant_scan, hgA, get_merchant_counts, List.lookup, dict_set, hv]
    norm_num [hc, List.lookup]
  simp only [find_unusual_merchant_patterns, mk_analyzer, default_config, hcustA, hm]

/-- C8: the claim fails on the code.  `__init__` performs no validation
of `rapid_transaction_count`: construction with `count = 1 < 2`
succeeds, and the window scan then runs out of contract, emitting a
"burst" pattern for every single transaction. -/
theorem low_count_accepted_at_init :
    analyzer_init [txn_good] cfg_low_count = .ok (mk_analyzer [txn_good] cfg_low_count)
    ∧ find_rapid_transactions (mk_analyzer [txn_good] cfg_low_count)
        = [("B", [{ transactions := ["T2"], time_window := 0, total_amount := 100 }])] := by
  constructor
  · rfl
  · have hgB : groupTxns [txn_good] "B" = [txn_good] := by decide
    have hcustB : customers [txn_good] = ["B"] := by decide
    have hrp : rapid_patterns_for 1 3600 [txn_good]
        = [{ transactions := ["T2"], time_window := 0, total_amount := 100 }] := by
      simp [rapid_patterns_for, sort_values, insert_by_timestamp, rapid_windows,
        window_pattern, txn_good, show List.range 1 = [0] from rfl, List.filterMap_cons,
        List.filterMap_nil, Function.comp]
    simp only [find_rapid_transactions, mk_analyzer, cfg_low_count, default_config,
      hcustB, mul_one]
    simp [List.filterMap_cons, hgB, hrp]




theorem lookup_dict_set_self {α : Type} (c : List (String × α)) (k : String) (v : α) :
    List.lookup k (dict_set c k v) = some v := by
  induction c with
  | nil => simp [dict_set]
  | cons p rest ih =>
    obtain ⟨pk, pv⟩ := p
    by_cases h : pk = k
    · subst h
      simp [dict_set]
    · have hbe : (k == pk) = false := beq_eq_false_iff_ne.mpr (Ne.symm h)
      simp [dict_set, h, List.lookup, hbe, ih]

theorem mem_dict_set {α : Type} (c : List (String × α)) (k : String) (v : α) :
    ∀ q ∈ dict_set c k v, q = (k, v) ∨ q ∈ c := by
  induction c with
  | nil => simp [dict_set]
  | cons p rest ih =>
    obtain ⟨pk, pv⟩ := p
    intro q hq
    by_cases h : pk = k
    · subst h
      simp [dict_set] at hq
      rcases hq with h1 | h1
      · exact Or.inl (by simp [h1])
      · exact Or.inr (List.mem_cons_of_mem _ h1)
    · simp [dict_set, h] at hq
      rcases hq with h1 | h1
      · exact Or.inr (by simp [h1])
      · rcases ih q h1 with h2 | h2
        · exact Or.inl h2
        · exact Or.inr (List.mem_cons_of_mem _ h2)

theorem lookup_mem {α : Type} (c : List (String × α)) (k : String) (v : α)
    (h : List.lookup k c = some v) : (k, v) ∈ c := by
  induction c with
  | nil => simp [List.lookup] at h
  | cons p rest ih =>
    obtain ⟨pk, pv⟩ := p
    by_cases hk : k = pk
    · subst hk
      simp [List.lookup_cons] at h
      subst h
      exact List.mem_cons_self _ _
    · have hbe : (k == pk) = false := beq_eq_false_iff_ne.mpr hk
      simp [List.lookup, hbe] at h
      exact List.mem_cons_of_mem _ (ih h)

theorem cacheConsistent_nil (df : List Txn) : CacheConsistent df [] := by
  simp [CacheConsistent]

theorem cacheConsistent_dict_set (df : List Txn) (cache : Cache) (cid : String)
    (h : CacheConsistent df cache) :
    CacheConsistent df (dict_set cache cid (value_counts (groupTxns df cid))) := by
  intro q hq
  rcases mem_dict_set cache cid _ q hq with h1 | h1
  · rw [h1]
  · exact h q h1

theorem get_merchant_counts_spec (df : List Txn) (enable : Bool) (cache : Cache) (cid : String)
    (h : CacheConsistent df cache) :
    (get_merchant_counts enable cache cid (groupTxns df cid)).1 = value_counts (groupTxns df cid)
    ∧ CacheConsistent df (get_merchant_counts enable cache cid (groupTxns df cid)).2 := by
  unfold get_merchant_counts
  by_cases hc : (!enable || (List.lookup cid cache).isNone) = true
  · rw [if_pos hc]
    exact ⟨by simp [lookup_dict_set_self], cacheConsistent_dict_set df cache cid h⟩
  · rw [if_neg hc]
    have hsome : ∃ v, List.lookup cid cache = some v := by
      cases hv : List.lookup cid cache with
      | none => exact absurd (by simp [hv]) hc
      | some v => exact ⟨v, rfl⟩
    obtain ⟨v, hv⟩ := hsome
    have hmem := lookup_mem cache cid v hv
    have heq := h _ hmem
    simp only at heq
    exact ⟨by simp [hv, heq], h⟩

theorem merchant_scan_spec (cats : List String) (thresh : ℚ) (enable : Bool) (df : List Txn) :
    ∀ (cids : List String) (cache : Cache), CacheConsistent df cache →
    (merchant_scan cats thresh enable df cids cache).1
      = merchant_scan_pure cats thresh df cids
    ∧ CacheConsistent df (merchant_scan cats thresh enable df cids cache).2 := by
  intro cids
  induction cids with
  | nil =>
    intro cache h
    exact ⟨rfl, h⟩
  | cons cid rest ih =>
    intro cache h
    obtain ⟨hfst, hcons⟩ := get_merchant_counts_spec df enable cache cid h
    simp only [merchant_scan, merchant_scan_pure, hfst]
    cases hcalc : calculate_risk_score cats (value_counts (groupTxns df cid)) (groupTxns df cid) with
    | noResult => exact ih _ hcons
    | nanScored => exact ih _ hcons
    | scored rd =>
      by_cases hth : rd.risk_score > thresh
      · simp only [if_pos hth]
        obtain ⟨ih1, ih2⟩ := ih _ hcons
        exact ⟨by rw [← ih1], ih2⟩
      · simp only [if_neg hth]
        exact ih _ hcons

theorem find_unusual_spec (a : Analyzer) (cache : Cache)
    (h : CacheConsistent a.df cache) :
    (find_unusual_merchant_patterns a cache).1
      = merchant_result_pure a.HIGH_RISK_CATEGORIES a.RISK_THRESHOLD a.df
    ∧ CacheConsistent a.df (find_unusual_merchant_patterns a cache).2 := by
  obtain ⟨h1, h2⟩ := merchant_scan_spec a.HIGH_RISK_CATEGORIES a.RISK_THRESHOLD
    a.enable_caching a.df (customers a.df) cache h
  exact ⟨h1, h2⟩

/-- C9: `analyze` is deterministic across repeated calls on the same
engine instance (the second call starts from the cache the first call
left behind), and the caching flag does not change the observable
output. -/
theorem analyze_deterministic_and_cache_transparent (a : Analyzer) :
    (analyze_transactions a ((analyze_transactions a []).2)).1 = (analyze_transactions a []).1
    ∧ (analyze_transactions { a with enable_caching := true } []).1
      = (analyze_transactions { a with enable_caching := false } []).1 := by
  constructor
  · obtain ⟨h1, h2⟩ := find_unusual_spec a [] (cacheConsistent_nil a.df)
    obtain ⟨h3, _⟩ := find_unusual_spec a (find_unusual_merchant_patterns a []).2 h2
    show ({ high_value_transactions := _, rapid_transactions := _, impossible_travel := _,
            unusual_merchant_patterns := _ } : AnalysisReport) = _
    unfold analyze_transactions
    simp only
    rw [h1, h3]
  · obtain ⟨ht, _⟩ := find_unusual_spec { a with enable_caching := true } []
      (cacheConsistent_nil a.df)
    obtain ⟨hf, _⟩ := find_unusual_spec { a with enable_caching := false } []
      (cacheConsistent_nil a.df)
    unfold analyze_transactions
    simp only [ht, hf]
    simp [find_high_value_transactions, find_rapid_transactions, find_impossible_travel,
      find_impossible_travel_for]

theorem lookup_pure_none (cats : List String) (thresh : ℚ) (df : List Txn) (cid : String)
    (hnone : calculate_risk_score cats (value_counts (groupTxns df cid)) (groupTxns df cid)
      = .noResult) :
    ∀ cids : List String,
      List.lookup cid (merchant_scan_pure cats thresh df cids) = none := by
  intro cids
  induction cids with
  | nil => rfl
  | cons c rest ih =>
    by_cases hc : c = cid
    · subst hc
      simp only [merchant_scan_pure, hnone]
      exact ih
    · simp only [merchant_scan_pure]
      cases hcalc : calculate_risk_score cats (value_counts (groupTxns df c)) (groupTxns df c) with
      | noResult => exact ih
      | nanScored => exact ih
      | scored rd =>
        by_cases hth : rd.risk_score > thresh
        · simp only [if_pos hth]
          have hbe : (cid == c) = false := beq_eq_false_iff_ne.mpr (Ne.symm hc)
          simp only [List.lookup, hbe]
          exact ih
        · simp only [if_neg hth]
          exact ih

/-- C7: a customer whose transactions include none of the configured
high-risk categories (accumulated high-risk count 0) gets no profile
from the merchant risk scorer, whatever their transaction count or
total amount. -/
theorem no_profile_without_high_risk (a : Analyzer) (cid : String)
    (h : (high_risk_totals a.HIGH_RISK_CATEGORIES (value_counts (groupTxns a.df cid))
          (groupTxns a.df cid)).1 = 0) :
    List.lookup cid (find_unusual_merchant_patterns a []).1 = none := by
  have hnone : calculate_risk_score a.HIGH_RISK_CATEGORIES
      (value_counts (groupTxns a.df cid)) (groupTxns a.df cid) = .noResult := by
    unfold calculate_risk_score
    by_cases hlen : (groupTxns a.df cid).length = 0
    · simp [hlen]
    · simp [hlen, h]
  obtain ⟨h1, _⟩ := find_unusual_spec a [] (cacheConsistent_nil a.df)
  rw [h1]
  unfold merchant_result_pure
  exact lookup_pure_none a.HIGH_RISK_CATEGORIES a.RISK_THRESHOLD a.df cid hnone (customers a.df)

/-- Witness for C7: a customer with a single grocery purchase. -/
theorem no_profile_without_high_risk_witness :
    (high_risk_totals (mk_analyzer [txn_c1b] default_config).HIGH_RISK_CATEGORIES
        (value_counts (groupTxns (mk_analyzer [txn_c1b] default_config).df "A"))
        (groupTxns (mk_analyzer [txn_c1b] default_config).df "A")).1 = 0
    ∧ List.lookup "A"
        (find_unusual_merchant_patterns (mk_analyzer [txn_c1b] default_config) []).1 = none :=
  ⟨by decide, no_profile_without_high_risk (mk_analyzer [txn_c1b] default_config) "A" (by decide)⟩

theorem hrt_fold_fst (mc : MerchantCounts) (txns : List Txn) :
    ∀ (cats : List String) (acc : Nat × ℚ),
    (List.foldl (fun acc category =>
      if (mc.map Prod.fst).contains category then
        let cat_txns := txns.filter (fun t => t.merchant_category == category)
        (acc.1 + cat_txns.length, acc.2 + (cat_txns.map (·.amount)).sum)
      else acc) acc cats).1
    = acc.1 + (cats.map (fun c => if (mc.map Prod.fst).contains c
        then (txns.filter (fun t => t.merchant_category == c)).length else 0)).sum := by
  intro cats
  induction cats with
  | nil => intro acc; simp
  | cons c rest ih =>
    intro acc
    simp only [List.foldl_cons, List.map_cons, List.sum_cons]
    rw [ih]
    by_cases h : ((mc.map Prod.fst).contains c) = true
    · simp only [if_pos h]
      omega
    · simp only [if_neg h]
      omega

theorem high_risk_totals_fst (cats : List String) (mc : MerchantCounts) (txns : List Txn) :
    (high_risk_totals cats mc txns).1
    = (cats.map (fun c => if (mc.map Prod.fst).contains c
        then (txns.filter (fun t => t.merchant_category == c)).length else 0)).sum := by
  unfold high_risk_totals
  rw [hrt_fold_fst]
  simp

theorem sum_map_add {α : Type} (l : List α) (f g : α → Nat) :
    (l.map (fun x => f x + g x)).sum = (l.map f).sum + (l.map g).sum := by
  induction l with
  | nil => rfl
  | cons x rest ih =>
    simp only [List.map_cons, List.sum_cons, ih]
    omega

theorem sum_ite_not_mem (x : String) :
    ∀ (cats : List String), x ∉ cats →
      (cats.map (fun c => if x = c then (1 : Nat) else 0)).sum = 0 := by
  intro cats
  induction cats with
  | nil => intro _; rfl
  | cons c rest ih =>
    intro h
    have h1 : x ≠ c := fun he => h (he ▸ List.mem_cons_self c rest)
    have h2 : x ∉ rest := fun hm => h (List.mem_cons_of_mem _ hm)
    simp only [List.map_cons, List.sum_cons, if_neg h1, ih h2]

theorem sum_ite_le_one (x : String) :
    ∀ (cats : List String), cats.Nodup →
      (cats.map (fun c => if x = c then (1 : Nat) else 0)).sum ≤ 1 := by
  intro cats
  induction cats with
  | nil => intro _; simp
  | cons c rest ih =>
    intro hnd
    rw [List.nodup_cons] at hnd
    by_cases hx : x = c
    · subst hx
      simp only [List.map_cons, List.sum_cons, if_pos rfl]
      rw [sum_ite_not_mem x rest hnd.1]
      simp
    · simp only [List.map_cons, List.sum_cons, if_neg hx]
      simpa using ih hnd.2

theorem sum_countP_le (cats : List String) (hnd : cats.Nodup) :
    ∀ txns : List Txn,
      (cats.map (fun c => txns.countP (fun t => t.merchant_category == c))).sum
        ≤ txns.length := by
  intro txns
  induction txns with
  | nil => simp [List.countP_nil]
  | cons t ts ih =>
    have hfun : (fun c => (t :: ts).countP (fun u => u.merchant_category == c))
        = (fun c => ts.countP (fun u => u.merchant_category == c)
            + if t.merchant_category = c then (1 : Nat) else 0) := by
      funext c
      rw [List.countP_cons]
      simp [beq_iff_eq]
    rw [hfun, sum_map_add cats (fun c => ts.countP (fun u => u.merchant_category == c))
      (fun c => if t.merchant_category = c then (1 : Nat) else 0)]
    have hone := sum_ite_le_one t.merchant_category cats hnd
    simp only [List.length_cons]
    omega

theorem high_risk_totals_fst_le (cats : List String) (hnd : cats.Nodup)
    (mc : MerchantCounts) (txns : List Txn) :
    (high_risk_totals cats mc txns).1 ≤ txns.length := by
  rw [high_risk_totals_fst]
  have step1 : (cats.map (fun c => if (mc.map Prod.fst).contains c
        then (txns.filter (fun t => t.merchant_category == c)).length else 0)).sum
      ≤ (cats.map (fun c => (txns.filter (fun t => t.merchant_category == c)).length)).sum := by
    apply List.sum_le_sum
    intro c _
    split
    · exact Nat.le_refl _
    · exact Nat.zero_le _
  have hfun2 : (fun c => (txns.filter (fun t => t.merchant_category == c)).length)
      = (fun c => txns.countP (fun t => t.merchant_category == c)) := by
    funext c
    rw [List.countP_eq_length_filter]
  exact step1.trans (by rw [hfun2]; exact sum_countP_le cats hnd txns)

theorem merchant_scan_mem (cats : List String) (thresh : ℚ) (enable : Bool) (df : List Txn) :
    ∀ (cids : List String) (cache : Cache),
      ∀ p ∈ (merchant_scan cats thresh enable df cids cache).1,
        ∃ mc, calculate_risk_score cats mc (groupTxns df p.1) = .scored p.2 := by
  intro cids
  induction cids with
  | nil =>
    intro cache p hp
    simp [merchant_scan] at hp
  | cons cid rest ih =>
    intro cache p hp
    simp only [merchant_scan] at hp
    cases hcalc : calculate_risk_score cats
        (get_merchant_counts enable cache cid (groupTxns df cid)).1 (groupTxns df cid) with
    | noResult =>
      rw [hcalc] at hp
      exact ih _ p hp
    | nanScored =>
      rw [hcalc] at hp
      exact ih _ p hp
    | scored rd =>
      rw [hcalc] at hp
      by_cases hth : rd.risk_score > thresh
      · simp only [if_pos hth] at hp
        rcases List.mem_cons.mp hp with h1 | h1
        · refine ⟨(get_merchant_counts enable cache cid (groupTxns df cid)).1, ?_⟩
          rw [h1]
          exact hcalc
        · exact ih _ p h1
      · simp only [if_neg hth] at hp
        exact ih _ p hp

theorem calculate_risk_score_scored (cats : List String) (mc : MerchantCounts)
    (txns : List Txn) (rd : RiskData)
    (h : calculate_risk_score cats mc txns = .scored rd) :
    rd.total_transactions = txns.length
    ∧ rd.high_risk_transactions = (high_risk_totals cats mc txns).1
    ∧ 0 < txns.length
    ∧ rd.risk_percentage
        = (((high_risk_totals cats mc txns).1 : ℚ) / (txns.length : ℚ)) * 100 := by
  unfold calculate_risk_score at h
  by_cases h0 : txns.length = 0
  · simp [h0] at h
  · simp only [h0, if_false] at h
    by_cases h1 : (high_risk_totals cats mc txns).1 = 0
    · simp [h1] at h
    · simp only [h1, if_false] at h
      by_cases h2 : (txns.map (·.amount)).sum = 0
      · simp [h2] at h
      · simp only [h2, if_false, RiskResult.scored.injEq] at h
        rw [← h]
        refine ⟨rfl, rfl, Nat.pos_of_ne_zero h0, rfl⟩

/-- C10: whenever the configured high-risk category list has no
duplicates, every emitted profile has `high_risk_transactions` at most
`total_transactions`, and so `risk_percentage` at most 100. -/
theorem flagged_profile_risk_bounds (a : Analyzer) (cache : Cache) (cid : String) (rd : RiskData)
    (hnd : a.HIGH_RISK_CATEGORIES.Nodup)
    (hlk : List.lookup cid (find_unusual_merchant_patterns a cache).1 = some rd) :
    rd.high_risk_transactions ≤ rd.total_transactions ∧ rd.risk_percentage ≤ 100 := by
  have hex : ∃ mc, calculate_risk_score a.HIGH_RISK_CATEGORIES mc (groupTxns a.df cid)
      = .scored rd := by
    unfold find_unusual_merchant_patterns at hlk
    have hp := lookup_mem _ _ _ hlk
    have hmem := merchant_scan_mem a.HIGH_RISK_CATEGORIES a.RISK_THRESHOLD a.enable_caching
      a.df (customers a.df) cache (cid, rd) hp
    simpa using hmem
  obtain ⟨mc, hcalc⟩ := hex
  obtain ⟨h1, h2, h3, h4⟩ := calculate_risk_score_scored _ _ _ _ hcalc
  have hle : (high_risk_totals a.HIGH_RISK_CATEGORIES mc (groupTxns a.df cid)).1
      ≤ (groupTxns a.df cid).length :=
    high_risk_totals_fst_le _ hnd _ _
  constructor
  · rw [h1, h2]
    exact hle
  · rw [h4]
    have hpos : (0 : ℚ) < ((groupTxns a.df cid).length : ℚ) := by
      exact_mod_cast h3
    have hcast : (((high_risk_totals a.HIGH_RISK_CATEGORIES mc (groupTxns a.df cid)).1 : ℚ))
        ≤ ((groupTxns a.df cid).length : ℚ) := by
      exact_mod_cast hle
    have hdiv : (((high_risk_totals a.HIGH_RISK_CATEGORIES mc (groupTxns a.df cid)).1 : ℚ))
        / ((groupTxns a.df cid).length : ℚ) ≤ 1 :=
      (div_le_one hpos).mpr hcast
    calc (((high_risk_totals a.HIGH_RISK_CATEGORIES mc (groupTxns a.df cid)).1 : ℚ))
          / ((groupTxns a.df cid).length : ℚ) * 100
        ≤ 1 * 100 := by
          exact mul_le_mul_of_nonneg_right hdiv (by norm_num)
      _ = 100 := by norm_num

/-- Witness for C10 at a concrete flagged customer. -/
theorem flagged_profile_risk_bounds_witness :
    ((mk_analyzer [txn_good] default_config).HIGH_RISK_CATEGORIES.Nodup
     ∧ List.lookup "B"
         (find_unusual_merchant_patterns (mk_analyzer [txn_good] default_config) []).1
         = some rd_good)
    ∧ (rd_good.high_risk_transactions ≤ rd_good.total_transactions
       ∧ rd_good.risk_percentage ≤ 100) := by
  have hgB : groupTxns [txn_good] "B" = [txn_good] := by decide
  have hvB : value_counts [txn_good] = [("Jewelry", 1)] := by decide
  have hcustB : customers [txn_good] = ["B"] := by decide
  have hfB1 : List.filter (fun t => t.merchant_category == "Jewelry") [txn_good]
      = [txn_good] := by decide
  have hfB2 : List.filter (fun t => t.merchant_category == "Electronics") [txn_good]
      = [] := by decide
  have hcon1 : (([("Jewelry", (1 : Nat))].map Prod.fst).contains "Jewelry") = true := by decide
  have hcon2 : (([("Jewelry", (1 : Nat))].map Prod.fst).contains "Electronics") = false := by
    decide
  have hhB : high_risk_totals ["Jewelry", "Electronics"] [("Jewelry", 1)] [txn_good]
      = (1, 100) := by
    simp [high_risk_totals, hcon1, hcon2, hfB1, hfB2]
    norm_num [txn_good]
  have hcB : calculate_risk_score ["Jewelry", "Electronics"] [("Jewelry", 1)] [txn_good]
      = .scored rd_good := by
    simp [calculate_risk_score, hhB, rd_good]
    norm_num [txn_good]
  have hmB : merchant_scan ["Jewelry", "Electronics"] (50 / 100) true [txn_good] ["B"] [] =
      ([("B", rd_good)], [("B", [("Jewelry", 1)])]) := by
    simp only [merchant_scan, hgB, get_merchant_counts, List.lookup, dict_set, hvB]
    norm_num [hcB, rd_good, List.lookup]
  have hlk : List.lookup "B"
      (find_unusual_merchant_patterns (mk_analyzer [txn_good] default_config) []).1
      = some rd_good := by
    simp only [find_unusual_merchant_patterns, mk_analyzer, default_config, hcustB, hmB]
    simp [List.lookup]
  exact ⟨⟨by decide, hlk⟩, flagged_profile_risk_bounds (mk_analyzer [txn_good] default_config)
    [] "B" rd_good (by decide) hlk⟩

end FraudDetection
